import Mathlib

/-
Verification of the resumable download engine of the VimeoDownloader
repository: a shallow embedding of the ProgressTracker ledger, the
Semaphore concurrency limiter, the RetryUtil backoff/classification
logic and the transfer state machine of downloadSingleVideo, together
with theorems settling the specification's claims about them.
-/

namespace VD

/- ================================================================
   ProgressTracker (src/ProgressTracker.ts, persistence-enabled
   version). Records are kept in a JS Map keyed by job id; we model
   the Map as an insertion-ordered association list. Map.set replaces
   the value in place when the key is present and appends otherwise,
   exactly like the JS Map.
   ================================================================ -/

structure DownloadProgress where
  id : String
  filename : String
  totalSize : Nat
  downloadedSize : Nat
  startTime : Nat
  lastUpdate : Option Nat := none
  endTime : Option Nat := none
  completed : Bool
  failed : Option Bool := none
  errorMessage : Option String := none
deriving DecidableEq, Repr

/-- The JS field access `d.failed` is truthy exactly when the optional
boolean is present and true. -/
def failedTruthy (d : DownloadProgress) : Bool :=
  d.failed = some true

abbrev TrackerMap := List (String × DownloadProgress)

def mapGet (m : TrackerMap) (k : String) : Option DownloadProgress :=
  match m with
  | [] => none
  | (k', v) :: rest => if k' = k then some v else mapGet rest k

def mapSet (m : TrackerMap) (k : String) (v : DownloadProgress) : TrackerMap :=
  match m with
  | [] => [(k, v)]
  | (k', v') :: rest => if k' = k then (k, v) :: rest else (k', v') :: mapSet rest k v

/-- ProgressTracker.startDownload: reuse a previous-session record when
it is neither completed nor failed (keeping its downloadedSize),
otherwise install a fresh record. `now` stands for Date.now(). -/
def startDownload (m : TrackerMap) (id : String) (totalSize : Nat)
    (filename : String) (now : Nat) : TrackerMap :=
  match mapGet m id with
  | some existing =>
    if !existing.completed && !failedTruthy existing then
      mapSet m id { existing with
        filename := filename, totalSize := totalSize, lastUpdate := some now }
    else
      mapSet m id { id := id
                    filename := filename
                    totalSize := totalSize
                    downloadedSize := 0
                    startTime := now
                    completed := false }
  | none =>
    mapSet m id { id := id
                  filename := filename
                  totalSize := totalSize
                  downloadedSize := 0
                  startTime := now
                  completed := false }

/-- ProgressTracker.updateProgress: a no-op when the id has no record. -/
def updateProgress (m : TrackerMap) (id : String) (downloadedSize : Nat)
    (now : Nat) : TrackerMap :=
  match mapGet m id with
  | some d => mapSet m id { d with downloadedSize := downloadedSize, lastUpdate := some now }
  | none => m

/-- ProgressTracker.completeDownload: a no-op when the id has no record. -/
def completeDownload (m : TrackerMap) (id : String) (now : Nat) : TrackerMap :=
  match mapGet m id with
  | some d => mapSet m id { d with completed := true, failed := some false, endTime := some now }
  | none => m

/-- ProgressTracker.failDownload: a no-op when the id has no record. -/
def failDownload (m : TrackerMap) (id : String) (msg : String) (now : Nat) : TrackerMap :=
  match mapGet m id with
  | some d => mapSet m id { d with failed := some true, errorMessage := some msg, endTime := some now }
  | none => m

/-- A record is active when it is neither completed nor failed
(`!d.completed && !d.failed` in the source). -/
def isActiveRecord (d : DownloadProgress) : Bool :=
  !d.completed && !failedTruthy d

/-- ProgressTracker.saveProgress writes `Array.from(this.downloads.values())`
to the snapshot file. -/
def saveProgress (m : TrackerMap) : List DownloadProgress :=
  m.map Prod.snd

/-- ProgressTracker.loadProgress at startup: the snapshot's records are
filtered to the ones that are neither completed nor failed and inserted
into the (empty) map with `this.downloads.set(download.id, download)`. -/
def loadProgress (ds : List DownloadProgress) : TrackerMap :=
  (ds.filter isActiveRecord).foldl (fun m d => mapSet m d.id d) []

/-- Well-formedness of the tracker map: every entry is keyed by its
record's id and the keys are distinct, which holds for every map the
tracker builds (it only ever calls set with the record's own id). -/
def trackerWF (m : TrackerMap) : Prop :=
  (∀ p ∈ m, p.1 = p.2.id) ∧ (m.map Prod.fst).Nodup

/- ================================================================
   Semaphore (src/Semaphore.ts). acquire resolves at once when a
   permit is free, otherwise enqueues a waiter; release returns a
   permit and, when the FIFO queue is non-empty, wakes the oldest
   waiter, which takes the permit straight back. We track the permit
   counter, the waiting-queue length and the number of jobs currently
   between a completed acquire and their release.
   ================================================================ -/

structure SemState where
  permits : Int
  waitingCount : Nat
  inFlight : Nat
deriving DecidableEq, Repr

def semInit (n : Nat) : SemState :=
  { permits := (n : Int), waitingCount := 0, inFlight := 0 }

inductive SemEvent
  | acquire
  | release
deriving DecidableEq, Repr

/-- One scheduler step of the semaphore. On release the releasing job
leaves the in-flight set; when a waiter is queued it is woken and
immediately decrements the just-returned permit, entering the
in-flight set, so the counter is restored and inFlight is unchanged. -/
def semStep (s : SemState) : SemEvent → SemState
  | .acquire =>
    if s.permits > 0 then
      { permits := s.permits - 1, waitingCount := s.waitingCount, inFlight := s.inFlight + 1 }
    else
      { permits := s.permits, waitingCount := s.waitingCount + 1, inFlight := s.inFlight }
  | .release =>
    if s.waitingCount > 0 then
      { permits := s.permits + 1 - 1, waitingCount := s.waitingCount - 1, inFlight := s.inFlight }
    else
      { permits := s.permits + 1, waitingCount := s.waitingCount, inFlight := s.inFlight - 1 }

/-- A trace is valid when release is only ever performed by a job that
is actually in flight, i.e. release calls pair with completed acquires. -/
def semValid (s : SemState) : List SemEvent → Bool
  | [] => true
  | .acquire :: es => semValid (semStep s .acquire) es
  | .release :: es => decide (0 < s.inFlight) && semValid (semStep s .release) es

def semRun (s : SemState) : List SemEvent → SemState
  | [] => s
  | e :: es => semRun (semStep s e) es

/-- Reachability invariant of the semaphore: permits never go negative
and permits plus in-flight jobs always total the configured capacity. -/
def semInv (n : Nat) (s : SemState) : Prop :=
  0 ≤ s.permits ∧ s.permits + (s.inFlight : Int) = (n : Int)

/- ================================================================
   RetryUtil (src/RetryUtil.ts): NetworkError objects, the
   retryability classification and the withRetry loop.
   ================================================================ -/

inductive ErrorType
  | AUTH_ERROR
  | PERMISSION_ERROR
  | RATE_LIMIT
  | SERVER_ERROR
  | API_ERROR
  | TIMEOUT
  | CONNECTION_FAILED
  | PARSE_ERROR
  | INVALID_RESPONSE
deriving DecidableEq, Repr

structure NetworkError where
  message : String
  status : Option Nat := none
  retryAfter : Option Nat := none
  errorType : Option ErrorType := none
  retryable : Option Bool := none
deriving DecidableEq, Repr

/-- RetryUtil.isErrorRetryable. The JS guard `status && status >= 400 && …`
treats both an absent status and status 0 as falsy, so a status of 0
falls through to the retryable default. -/
def isErrorRetryable (errorType : Option ErrorType) (status : Option Nat) : Bool :=
  if errorType = some .AUTH_ERROR || errorType = some .PERMISSION_ERROR then
    false
  else
    match status with
    | some s => if s ≠ 0 && 400 ≤ s && decide (s < 500) && s ≠ 429 then false else true
    | none => true

/-- RetryUtil.createNetworkError: builds the error and stamps the
retryable flag computed by isErrorRetryable. -/
def createNetworkError (message : String) (status : Option Nat)
    (retryAfter : Option Nat) (errorType : Option ErrorType) : NetworkError :=
  { message := message
    status := status
    retryAfter := retryAfter
    errorType := errorType
    retryable := some (isErrorRetryable errorType status) }

/-- Substring test used for the message fallbacks of
isNonRetryableError (JS String.prototype.includes with a non-empty
pattern): pat occurs in s iff splitting on pat produces more than one
piece. -/
def containsSub (s pat : String) : Bool :=
  (s.splitOn pat).length > 1

/-- RetryUtil.isNonRetryableError. The stamped retryable flag takes
precedence; only errors without it reach the errorType switch and the
message fallbacks. -/
def isNonRetryableError (e : NetworkError) (retryOnStatus : List Nat) : Bool :=
  match e.retryable with
  | some b => !b
  | none =>
    match e.errorType with
    | some .AUTH_ERROR => true
    | some .PERMISSION_ERROR => true
    | some .RATE_LIMIT => false
    | some .SERVER_ERROR => false
    | some .TIMEOUT => false
    | some .CONNECTION_FAILED => false
    | some .PARSE_ERROR => true
    | some .INVALID_RESPONSE => true
    | _ =>
      let msg := e.message.toLower
      if containsSub msg "unauthorized" || containsSub msg "authentication failed" then
        true
      else if containsSub msg "forbidden" && !retryOnStatus.contains 403 then
        true
      else if (match e.status with
               | some s => s ≠ 0 && 400 ≤ s && decide (s < 500) && !retryOnStatus.contains s
               | none => false) then
        true
      else if containsSub msg "400" || containsSub msg "404" then
        true
      else
        false

def defaultRetryOnStatus : List Nat := [429, 500, 502, 503, 504]

/-- The withRetry loop specialised to a stateless operation whose
outcome depends only on the attempt index, returning how many times
the operation was executed together with the final result. `remaining`
is `maxRetries - attempt`, so the loop body mirrors the source: return
on success, throw at once on a non-retryable error, throw the last
error when the attempt budget is spent, otherwise sleep and retry. -/
def retryRun (outcomes : Nat → Except NetworkError Unit) (retryOnStatus : List Nat) :
    Nat → Nat → Nat × Except NetworkError Unit
  | attempt, 0 =>
    match outcomes attempt with
    | .ok u => (1, .ok u)
    | .error e => (1, .error e)
  | attempt, r + 1 =>
    match outcomes attempt with
    | .ok u => (1, .ok u)
    | .error e =>
      if isNonRetryableError e retryOnStatus then
        (1, .error e)
      else
        let rest := retryRun outcomes retryOnStatus (attempt + 1) r
        (rest.1 + 1, rest.2)

/-- The JS `options.backoffMultiplier || 2`: absent or zero means 2. -/
def effectiveMultiplier (backoffMultiplier : Option ℚ) : ℚ :=
  match backoffMultiplier with
  | some m => if m = 0 then 2 else m
  | none => 2

/-- The backoff delay computed by withRetry before the retry-after
override: exponential in the attempt index, optionally jittered by up
to +10 percent (`enableJitter !== false`), then capped at maxDelay.
jitterRand stands for the Math.random() sample in [0,1). -/
def computeDelay (baseDelay : ℚ) (backoffMultiplier : Option ℚ)
    (enableJitter : Option Bool) (maxDelay : ℚ) (jitterRand : ℚ)
    (attempt : Nat) : ℚ :=
  let multiplier := effectiveMultiplier backoffMultiplier
  let d0 := baseDelay * multiplier ^ attempt
  let d1 := if enableJitter ≠ some false then d0 + d0 * (1 / 10) * jitterRand else d0
  min d1 maxDelay

/-- The final delay: a 429 with a truthy retryAfter hint overrides the
computed delay with retryAfter seconds converted to milliseconds. -/
def retryDelay (baseDelay : ℚ) (backoffMultiplier : Option ℚ)
    (enableJitter : Option Bool) (maxDelay : ℚ) (jitterRand : ℚ)
    (attempt : Nat) (e : NetworkError) : ℚ :=
  let d := computeDelay baseDelay backoffMultiplier enableJitter maxDelay jitterRand attempt
  match e.status, e.retryAfter with
  | some 429, some ra => if ra ≠ 0 then (ra : ℚ) * 1000 else d
  | _, _ => d

/- ================================================================
   Transfer state machine (VimeoDownloader.downloadSingleVideo).
   The on-disk state is the destination file and the `<dest>.partial`
   staging file, each modelled by its size when present. Renames are
   modelled as succeeding.
   ================================================================ -/

structure FS where
  destSize : Option Nat
  stagingSize : Option Nat
deriving DecidableEq, Repr

/-- Ledger calls issued by the transfer, in order. -/
inductive TrackOp
  | update (bytes : Nat)
  | complete
deriving DecidableEq, Repr

inductive EntryResult
  | skipped
  | renamedComplete
  | proceed (resumeFrom : Nat)
deriving DecidableEq, Repr

structure EntryOut where
  result : EntryResult
  fs : FS
  ops : List TrackOp
deriving DecidableEq, Repr

/-- Staging-file check of downloadSingleVideo (after the destination
check): a staging file with 0 < size < job.size sets the resume offset
and reports the offset to the ledger; one with size ≥ job.size is
renamed to the destination and completed; an empty one is deleted and
the transfer starts fresh. -/
def stagingCheck (jobSize : Nat) (fs : FS) : EntryOut :=
  match fs.stagingSize with
  | some p =>
    if 0 < p && p < jobSize then
      { result := .proceed p, fs := fs, ops := [.update p] }
    else if jobSize ≤ p then
      { result := .renamedComplete
        fs := { destSize := some p, stagingSize := none }
        ops := [.update jobSize, .complete] }
    else
      { result := .proceed 0, fs := { fs with stagingSize := none }, ops := [] }
  | none => { result := .proceed 0, fs := fs, ops := [] }

/-- Entry logic of downloadSingleVideo: skip when the destination
already exists with the expected size (or a nonzero size when the
expected size is unknown) and overwrite is off; delete the destination
when overwrite is on; then consult the staging file. The `job.size ||
stats.size` reported on skip is the destination size when the job size
is zero. -/
def entry (overwrite : Bool) (jobSize : Nat) (fs : FS) : EntryOut :=
  match fs.destSize with
  | some dsize =>
    if !overwrite then
      if dsize = jobSize || (jobSize = 0 && 0 < dsize) then
        { result := .skipped
          fs := fs
          ops := [.update (if jobSize = 0 then dsize else jobSize), .complete] }
      else
        stagingCheck jobSize fs
    else
      stagingCheck jobSize { fs with destSize := none }
  | none => stagingCheck jobSize fs

/-- One HTTP response to the download request, with the body chunk
sizes that arrive before the stream either ends cleanly
(streamFails = false) or errors out (streamFails = true). -/
structure ServerResponse where
  status : Nat
  retryAfterHeader : Option Nat := none
  contentLength : Nat := 0
  chunks : List Nat := []
  streamFails : Bool := false
  hasBody : Bool := true
deriving DecidableEq, Repr

/-- `response.ok`: status in the 2xx range. -/
def respOk (r : ServerResponse) : Bool :=
  200 ≤ r.status && r.status < 300

/-- The range request header attached to the fetch: present exactly
when the resume offset is positive, carrying that offset. -/
def rangeHeader (resumeFrom : Nat) : Option Nat :=
  if 0 < resumeFrom then some resumeFrom else none

/-- Running totals reported to the ledger after each chunk:
`downloadedSize += value.length; updateProgress(id, downloadedSize)`. -/
def chunkTotals (start : Nat) : List Nat → List Nat
  | [] => []
  | c :: cs => (start + c) :: chunkTotals (start + c) cs

/-- `job.size || totalSize` used by the final size verification. -/
def expectedSizeOf (jobSize totalSize : Nat) : Nat :=
  if jobSize = 0 then totalSize else jobSize

/-- `isPartialContent ? resumeFrom + contentLength : contentLength`. -/
def totalSizeOf (resumeFrom : Nat) (r : ServerResponse) : Nat :=
  if r.status = 206 then resumeFrom + r.contentLength else r.contentLength

structure AttemptOut where
  resumeFrom : Nat
  fs : FS
  ops : List TrackOp
  result : Option NetworkError
deriving DecidableEq, Repr

/-- One execution of the operation passed to withRetry inside
downloadSingleVideo: handle the response status (416 deletes the
staging file and resets the offset), reject a full-content reply to a
ranged request (deleting the staging file, resetting the offset and
raising a retryable server error), otherwise stream the chunks into
the staging file while updating the ledger, verify the written size,
and on success rename the staging file onto the destination and mark
the ledger complete. A streaming or verification failure keeps the
staging file unless it is smaller than 1024 bytes. -/
def attempt (jobSize : Nat) (resumeFrom : Nat) (fs : FS) (r : ServerResponse) : AttemptOut :=
  if !respOk r then
    if r.status = 403 then
      { resumeFrom := resumeFrom, fs := fs, ops := []
        result := some (createNetworkError "Download link expired or access denied"
          (some 403) none (some .PERMISSION_ERROR)) }
    else if r.status = 404 then
      { resumeFrom := resumeFrom, fs := fs, ops := []
        result := some (createNetworkError "Video file not found"
          (some 404) none (some .API_ERROR)) }
    else if r.status = 416 then
      { resumeFrom := 0, fs := { fs with stagingSize := none }, ops := []
        result := some (createNetworkError "Range not satisfiable, retrying from beginning"
          (some 416) none (some .SERVER_ERROR)) }
    else if r.status = 429 then
      { resumeFrom := resumeFrom, fs := fs, ops := []
        result := some (createNetworkError "Rate limited during download"
          (some 429) r.retryAfterHeader (some .RATE_LIMIT)) }
    else
      { resumeFrom := resumeFrom, fs := fs, ops := []
        result := some (createNetworkError "Download failed"
          (some r.status) none (some .API_ERROR)) }
  else if !r.hasBody then
    { resumeFrom := resumeFrom, fs := fs, ops := []
      result := some { message := "No response body available for download" } }
  else if 0 < resumeFrom && !(r.status = 206) then
    { resumeFrom := 0, fs := { fs with stagingSize := none }, ops := []
      result := some (createNetworkError "Resume not supported, retrying from beginning"
        (some 200) none (some .SERVER_ERROR)) }
  else
    let written := resumeFrom + r.chunks.sum
    let updates := (chunkTotals resumeFrom r.chunks).map TrackOp.update
    if r.streamFails then
      { resumeFrom := resumeFrom
        fs := { fs with stagingSize := if written < 1024 then none else some written }
        ops := updates
        result := some { message := "Download stream error" } }
    else
      let expected := expectedSizeOf jobSize (totalSizeOf resumeFrom r)
      if 0 < expected && written ≠ expected then
        { resumeFrom := resumeFrom
          fs := { fs with stagingSize := if written < 1024 then none else some written }
          ops := updates
          result := some { message := "File size mismatch: expected " ++ toString expected
            ++ ", got " ++ toString written } }
      else
        { resumeFrom := resumeFrom
          fs := { destSize := some written, stagingSize := none }
          ops := updates ++ [.complete]
          result := none }

inductive DlResult
  | downloaded
  | skipped
  | failed (e : NetworkError)
deriving DecidableEq, Repr

structure RunState where
  resumeFrom : Nat
  fs : FS
  ops : List TrackOp
  requests : List (Option Nat)
deriving DecidableEq, Repr

/-- Retry configuration of the download call to withRetry. -/
def dlRetryOnStatus : List Nat := [429, 500, 502, 503, 504, 416]

def dlMaxRetries : Nat := 3

/-- The withRetry loop around the download attempt, threading the
mutable resumeFrom and the file-system state. Each iteration issues
one request (recording its range header), runs the attempt, and either
returns, aborts on a non-retryable error, or retries after the onRetry
callback (which re-zeroes resumeFrom on a 416). An exhausted response
list stands for the fetch itself rejecting. -/
def dlRetry (jobSize : Nat) : List ServerResponse → RunState → Nat → RunState × DlResult
  | [], st, _ => (st, .failed { message := "Network connection failed" })
  | r :: rest, st, remaining =>
    let req := rangeHeader st.resumeFrom
    let a := attempt jobSize st.resumeFrom st.fs r
    let st1 : RunState :=
      { resumeFrom := a.resumeFrom, fs := a.fs
        ops := st.ops ++ a.ops, requests := st.requests ++ [req] }
    match a.result with
    | none => (st1, .downloaded)
    | some e =>
      if isNonRetryableError e dlRetryOnStatus then
        (st1, .failed e)
      else
        let st2 := if e.status = some 416 then { st1 with resumeFrom := 0 } else st1
        match remaining with
        | 0 => (st2, .failed e)
        | rem + 1 => dlRetry jobSize rest st2 rem

structure DsvOut where
  result : DlResult
  fs : FS
  ops : List TrackOp
  requests : List (Option Nat)
deriving DecidableEq, Repr

/-- downloadSingleVideo: the entry logic decides skip / rename-complete
/ proceed; a proceeding transfer runs the attempt under withRetry with
maxRetries = 3. requests lists the range headers of the network
requests issued, in order. -/
def downloadSingleVideo (overwrite : Bool) (jobSize : Nat) (fs0 : FS)
    (resps : List ServerResponse) : DsvOut :=
  match entry overwrite jobSize fs0 with
  | ⟨.skipped, fs1, ops1⟩ => { result := .skipped, fs := fs1, ops := ops1, requests := [] }
  | ⟨.renamedComplete, fs1, ops1⟩ =>
    { result := .downloaded, fs := fs1, ops := ops1, requests := [] }
  | ⟨.proceed r0, fs1, ops1⟩ =>
    let run := dlRetry jobSize resps
      { resumeFrom := r0, fs := fs1, ops := ops1, requests := [] } dlMaxRetries
    { result := run.2, fs := run.1.fs, ops := run.1.ops, requests := run.1.requests }

/-- Ledger effect of one TrackOp for a given job id. -/
def applyOp (id : String) (now : Nat) (m : TrackerMap) : TrackOp → TrackerMap
  | .update n => updateProgress m id n now
  | .complete => completeDownload m id now

def applyOps (id : String) (now : Nat) (m : TrackerMap) (ops : List TrackOp) : TrackerMap :=
  ops.foldl (applyOp id now) m

/-- The downloadedSize values reported to the ledger before the record
leaves the active state (i.e. strictly before the first complete). -/
def updatesWhileActive : List TrackOp → List Nat
  | [] => []
  | .update n :: rest => n :: updatesWhileActive rest
  | .complete :: _ => []

/-- The "Invalid JSON response from server" error thrown by apiRequest
when the body fails to parse, as built by createNetworkError. -/
def parseNetworkError : NetworkError :=
  createNetworkError "Invalid JSON response from server" (some 0) none (some .PARSE_ERROR)

/-- The "Invalid response format - expected JSON" error thrown by
apiRequest on a 2xx response with a non-JSON content type. -/
def invalidResponseNetworkError : NetworkError :=
  createNetworkError "Invalid response format - expected JSON" (some 200) none
    (some .INVALID_RESPONSE)

/-- The retryable server-classified error raised when a ranged request
is answered with a full-content (non-206) status. -/
def resumeResetError : NetworkError :=
  createNetworkError "Resume not supported, retrying from beginning" (some 200) none
    (some .SERVER_ERROR)

/-- A sample active ledger record, used by concrete witnesses. -/
def recActive : DownloadProgress :=
  { id := "job/1"
    filename := "a.mp4"
    totalSize := 10
    downloadedSize := 3
    startTime := 0
    completed := false }

/-- A sample completed ledger record, used by concrete witnesses. -/
def recDone : DownloadProgress :=
  { id := "job/2"
    filename := "b.mp4"
    totalSize := 20
    downloadedSize := 20
    startTime := 0
    completed := true }

/-- A sample failed ledger record, used by concrete witnesses. -/
def recFailed : DownloadProgress :=
  { id := "job/3"
    filename := "c.mp4"
    totalSize := 30
    downloadedSize := 5
    startTime := 0
    completed := false
    failed := some true }

/-- A sample ledger holding one active, one completed and one failed
record, used by concrete witnesses. -/
def sampleLedger : TrackerMap :=
  [("job/1", recActive), ("job/2", recDone), ("job/3", recFailed)]

/- ================================================================
   Helper lemmas about the tracker map.
   ================================================================ -/

theorem mapGet_mapSet_self (m : TrackerMap) (k : String) (v : DownloadProgress) :
    mapGet (mapSet m k v) k = some v := by
  induction m with
  | nil => simp [mapSet, mapGet]
  | cons p rest ih =>
    obtain ⟨k', v'⟩ := p
    by_cases h : k' = k
    · simp [mapSet, mapGet, h]
    · simp [mapSet, mapGet, h, ih]

theorem mapSet_eq_append (m : TrackerMap) (k : String) (v : DownloadProgress)
    (h : k ∉ m.map Prod.fst) : mapSet m k v = m ++ [(k, v)] := by
  induction m with
  | nil => rfl
  | cons p rest ih =>
    obtain ⟨k', v'⟩ := p
    rw [List.map_cons, List.mem_cons] at h
    push_neg at h
    simp only [mapSet]
    rw [if_neg (fun heq => h.1 heq.symm), ih h.2]
    rfl

theorem foldl_mapSet_eq (rest : TrackerMap) (acc : TrackerMap)
    (hids : ∀ p ∈ rest, p.1 = p.2.id)
    (hnd : (acc.map Prod.fst ++ rest.map Prod.fst).Nodup) :
    (rest.map Prod.snd).foldl (fun a d => mapSet a d.id d) acc = acc ++ rest := by
  induction rest generalizing acc with
  | nil => simp
  | cons p rest ih =>
    obtain ⟨k, d⟩ := p
    have hid : k = d.id := hids (k, d) (List.mem_cons_self _ _)
    have hk : k ∉ acc.map Prod.fst := by
      intro hmem
      rcases (List.nodup_append.mp hnd) with ⟨-, -, hdisj⟩
      exact hdisj hmem (by simp)
    have step : mapSet acc d.id d = acc ++ [(k, d)] := by
      rw [← hid]
      exact mapSet_eq_append acc k d hk
    have hnd' : ((acc ++ [(k, d)]).map Prod.fst ++ rest.map Prod.fst).Nodup := by
      have heq : (acc ++ [(k, d)]).map Prod.fst ++ rest.map Prod.fst =
          acc.map Prod.fst ++ (k :: rest.map Prod.fst) := by
        simp
      rw [heq]
      simpa using hnd
    simp only [List.map_cons, List.foldl_cons]
    rw [step, ih (acc ++ [(k, d)]) (fun q hq => hids q (List.mem_cons_of_mem _ hq)) hnd']
    simp

theorem filter_map_snd (m : TrackerMap) :
    (m.map Prod.snd).filter isActiveRecord =
      (m.filter (fun p => isActiveRecord p.2)).map Prod.snd := by
  induction m with
  | nil => rfl
  | cons p rest ih =>
    by_cases h : isActiveRecord p.2
    · simp [List.filter_cons, h, ih]
    · simp [List.filter_cons, h, ih]

/- ================================================================
   C10: mutations on an unknown id are no-ops.
   ================================================================ -/

/-- C10: for every id without a record in the ledger, updateProgress,
completeDownload and failDownload leave the ledger exactly as it was:
no record is created, no other record is modified, and no error is
raised (the operations are total). -/
theorem c10_missing_id_noop (m : TrackerMap) (id : String) (v now : Nat) (msg : String)
    (h : mapGet m id = none) :
    updateProgress m id v now = m ∧ completeDownload m id now = m ∧
      failDownload m id msg now = m := by
  refine ⟨?_, ?_, ?_⟩ <;> simp [updateProgress, completeDownload, failDownload, h]

theorem c10_witness :
    mapGet sampleLedger "job/9" = none ∧
    (updateProgress sampleLedger "job/9" 7 1 = sampleLedger ∧
     completeDownload sampleLedger "job/9" 1 = sampleLedger ∧
     failDownload sampleLedger "job/9" "boom" 1 = sampleLedger) :=
  ⟨by decide, c10_missing_id_noop sampleLedger "job/9" 7 1 "boom" (by decide)⟩

/- ================================================================
   C3: ledger round-trip through the persisted snapshot.
   ================================================================ -/

/-- C3: reloading a snapshot written by saveProgress yields exactly
the entries whose records are neither completed nor failed, unchanged
(in particular with identical downloadedSize and totalSize); completed
and failed records are dropped on load. -/
theorem c3_roundtrip (m : TrackerMap) (h : trackerWF m) :
    loadProgress (saveProgress m) = m.filter (fun p => isActiveRecord p.2) := by
  unfold loadProgress saveProgress
  rw [filter_map_snd]
  have hsub : List.Sublist (m.filter (fun p => isActiveRecord p.2)) m :=
    List.filter_sublist m
  have hids : ∀ p ∈ m.filter (fun p => isActiveRecord p.2), p.1 = p.2.id :=
    fun p hp => h.1 p (hsub.mem hp)
  have hnd : (([] : TrackerMap).map Prod.fst ++
      (m.filter (fun p => isActiveRecord p.2)).map Prod.fst).Nodup := by
    simpa using h.2.sublist (hsub.map Prod.fst)
  simpa using foldl_mapSet_eq (m.filter (fun p => isActiveRecord p.2)) [] hids hnd

theorem c3_witness :
    trackerWF sampleLedger ∧
    loadProgress (saveProgress sampleLedger) =
      sampleLedger.filter (fun p => isActiveRecord p.2) :=
  ⟨⟨by decide, by decide⟩, c3_roundtrip sampleLedger ⟨by decide, by decide⟩⟩

/- ================================================================
   C2: the semaphore never admits more than N jobs in flight.
   ================================================================ -/

theorem semInv_step (n : Nat) (s : SemState) (e : SemEvent) (hinv : semInv n s)
    (hrel : e = SemEvent.release → 0 < s.inFlight) : semInv n (semStep s e) := by
  obtain ⟨hp, hsum⟩ := hinv
  cases e with
  | acquire =>
    by_cases h : s.permits > 0
    · constructor
      · simp [semStep, h]
        omega
      · simp [semStep, h]
        omega
    · constructor
      · simpa [semStep, h] using hp
      · simpa [semStep, h] using hsum
  | release =>
    have hfl : 0 < s.inFlight := hrel rfl
    by_cases h : s.waitingCount > 0
    · constructor
      · simp [semStep, h]
        omega
      · simpa [semStep, h] using hsum
    · constructor
      · simp [semStep, h]
        omega
      · simp [semStep, h]
        push_cast [Nat.cast_sub hfl]
        omega

theorem semInv_run (n : Nat) (s : SemState) (tr : List SemEvent) (hinv : semInv n s)
    (hv : semValid s tr = true) : semInv n (semRun s tr) := by
  induction tr generalizing s with
  | nil => simpa [semRun] using hinv
  | cons e es ih =>
    cases e with
    | acquire =>
      rw [semValid] at hv
      exact ih (semStep s .acquire) (semInv_step n s .acquire hinv (by intro h; cases h)) hv
    | release =>
      rw [semValid, Bool.and_eq_true, decide_eq_true_eq] at hv
      exact ih (semStep s .release) (semInv_step n s .release hinv (fun _ => hv.1)) hv.2

/-- C2: for a Semaphore initialised with N ≥ 1 permits and any valid
sequence of acquire and release operations (every release is performed
by a job that completed its acquire), the number of jobs between a
completed acquire and their release never exceeds N. -/
theorem c2_semaphore_bound (n : Nat) (tr : List SemEvent) (_hn : 1 ≤ n)
    (hv : semValid (semInit n) tr = true) : (semRun (semInit n) tr).inFlight ≤ n := by
  have hinit : semInv n (semInit n) := by
    constructor
    · simp [semInit]
    · simp [semInit]
  obtain ⟨hp, hsum⟩ := semInv_run n (semInit n) tr hinit hv
  omega

theorem c2_witness :
    1 ≤ 2 ∧
    semValid (semInit 2) [SemEvent.acquire, SemEvent.acquire, SemEvent.acquire,
      SemEvent.release, SemEvent.release, SemEvent.acquire] = true ∧
    (semRun (semInit 2) [SemEvent.acquire, SemEvent.acquire, SemEvent.acquire,
      SemEvent.release, SemEvent.release, SemEvent.acquire]).inFlight ≤ 2 :=
  ⟨by decide, by decide,
    c2_semaphore_bound 2 [SemEvent.acquire, SemEvent.acquire, SemEvent.acquire,
      SemEvent.release, SemEvent.release, SemEvent.acquire] (by decide) (by decide)⟩

/- ================================================================
   C6: parse / invalid_response errors and the retry wrapper.
   The claim (and the errorType switch inside isNonRetryableError,
   with its "Usually indicates a permanent issue" comment) says these
   are terminal with no retry; but createNetworkError stamps
   retryable = true for them (PARSE_ERROR is thrown with status 0 and
   INVALID_RESPONSE with a 2xx status, neither of which is a 4xx), and
   the stamped flag short-circuits the switch, so withRetry retries
   them through the whole attempt budget.
   ================================================================ -/

/-- C6: the parse and invalid-response errors the program actually
throws (built by createNetworkError) are treated as retryable by
isNonRetryableError, so withRetry with maxRetries = 3 executes the
failing operation 4 times instead of once; the errorType switch that
would classify them as non-retryable is reachable only for errors
without the stamped retryable flag, which the program never produces
for these categories. -/
theorem c6_parse_retried :
    isNonRetryableError parseNetworkError defaultRetryOnStatus = false ∧
    isNonRetryableError invalidResponseNetworkError defaultRetryOnStatus = false ∧
    (retryRun (fun _ => .error parseNetworkError) defaultRetryOnStatus 0 3).1 = 4 ∧
    (retryRun (fun _ => .error invalidResponseNetworkError) defaultRetryOnStatus 0 3).1 = 4 ∧
    isNonRetryableError { message := "Invalid JSON response from server"
                          errorType := some .PARSE_ERROR } defaultRetryOnStatus = true ∧
    isNonRetryableError { message := "Invalid response format - expected JSON"
                          errorType := some .INVALID_RESPONSE } defaultRetryOnStatus = true :=
  ⟨rfl, rfl, rfl, rfl, rfl, rfl⟩

/- ================================================================
   C8: backoff monotonicity and cap.
   ================================================================ -/

/-- C8: with jitter disabled and no retry-after hint, for a base delay
≥ 0 and an effective multiplier ≥ 1 (the source defaults it to 2), the
delay computed for attempt n+1 is at least the delay for attempt n,
and every computed delay is capped at maxDelay. -/
theorem c8_backoff_monotone (baseDelay maxDelay jitterRand : ℚ) (bm : Option ℚ) (n : Nat)
    (hb : 0 ≤ baseDelay) (hm : 1 ≤ effectiveMultiplier bm) :
    computeDelay baseDelay bm (some false) maxDelay jitterRand n ≤
      computeDelay baseDelay bm (some false) maxDelay jitterRand (n + 1) ∧
    computeDelay baseDelay bm (some false) maxDelay jitterRand n ≤ maxDelay := by
  constructor
  · unfold computeDelay
    simp only [ne_eq, not_true_eq_false, if_false]
    exact min_le_min
      (mul_le_mul_of_nonneg_left (pow_le_pow_right₀ hm (Nat.le_succ n)) hb)
      (le_refl maxDelay)
  · unfold computeDelay
    simp only [ne_eq, not_true_eq_false, if_false]
    exact min_le_right _ _

theorem c8_witness :
    (0 : ℚ) ≤ 2000 ∧ 1 ≤ effectiveMultiplier (some 2) ∧
    (computeDelay 2000 (some 2) (some false) 30000 0 0 ≤
      computeDelay 2000 (some 2) (some false) 30000 0 1 ∧
     computeDelay 2000 (some 2) (some false) 30000 0 0 ≤ 30000) :=
  ⟨by norm_num, by norm_num [effectiveMultiplier],
    c8_backoff_monotone 2000 30000 0 (some 2) 0 (by norm_num)
      (by norm_num [effectiveMultiplier])⟩

/- ================================================================
   Helper lemmas about the transfer state machine and the ledger
   effect of its TrackOps.
   ================================================================ -/

theorem startDownload_get (m : TrackerMap) (id : String) (ts : Nat) (name : String)
    (now : Nat) : ∃ r, mapGet (startDownload m id ts name now) id = some r := by
  unfold startDownload
  cases mapGet m id with
  | none => exact ⟨_, mapGet_mapSet_self m id _⟩
  | some existing =>
    dsimp only
    split
    · exact ⟨_, mapGet_mapSet_self m id _⟩
    · exact ⟨_, mapGet_mapSet_self m id _⟩

theorem updateProgress_get_some (m : TrackerMap) (id : String) (v now : Nat)
    (d : DownloadProgress) (h : mapGet m id = some d) :
    mapGet (updateProgress m id v now) id =
      some { d with downloadedSize := v, lastUpdate := some now } := by
  unfold updateProgress
  rw [h]
  exact mapGet_mapSet_self m id _

theorem completeDownload_get_some (m : TrackerMap) (id : String) (now : Nat)
    (d : DownloadProgress) (h : mapGet m id = some d) :
    mapGet (completeDownload m id now) id =
      some { d with completed := true, failed := some false, endTime := some now } := by
  unfold completeDownload
  rw [h]
  exact mapGet_mapSet_self m id _

/- ================================================================
   C4: complete destination file, overwrite off.
   ================================================================ -/

/-- C4: when the destination exists with the job's expected size (or
the expected size is 0 and the file non-empty) and overwrite is off,
the transfer returns Skipped, issues no network request, and its
ledger operations mark the record completed with the full size
(job.size, or the file size when job.size is 0). -/
theorem c4_skip (jobSize d : Nat) (fs : FS) (resps : List ServerResponse)
    (m : TrackerMap) (id name : String) (t0 t1 : Nat)
    (hdest : fs.destSize = some d)
    (hmatch : d = jobSize ∨ (jobSize = 0 ∧ 0 < d)) :
    (downloadSingleVideo false jobSize fs resps).result = .skipped ∧
    (downloadSingleVideo false jobSize fs resps).requests = [] ∧
    (downloadSingleVideo false jobSize fs resps).ops =
      [.update (if jobSize = 0 then d else jobSize), .complete] ∧
    (∃ r, mapGet (applyOps id t1 (startDownload m id jobSize name t0)
        (downloadSingleVideo false jobSize fs resps).ops) id = some r ∧
      r.completed = true ∧ r.downloadedSize = (if jobSize = 0 then d else jobSize) ∧
      failedTruthy r = false) := by
  have hcond : (decide (d = jobSize) || (decide (jobSize = 0) && decide (0 < d))) = true := by
    rcases hmatch with h | ⟨h0, hd⟩
    · simp [h]
    · simp [h0, hd]
  have hentry : entry false jobSize fs =
      ⟨.skipped, fs, [.update (if jobSize = 0 then d else jobSize), .complete]⟩ := by
    unfold entry
    rw [hdest]
    simp [hcond]
  have hdsv : downloadSingleVideo false jobSize fs resps =
      { result := .skipped, fs := fs
        ops := [.update (if jobSize = 0 then d else jobSize), .complete]
        requests := [] } := by
    unfold downloadSingleVideo
    rw [hentry]
  refine ⟨by rw [hdsv], by rw [hdsv], by rw [hdsv], ?_⟩
  rw [hdsv]
  obtain ⟨r0, hr0⟩ := startDownload_get m id jobSize name t0
  have h1 := updateProgress_get_some (startDownload m id jobSize name t0) id
    (if jobSize = 0 then d else jobSize) t1 r0 hr0
  have h2 := completeDownload_get_some
    (updateProgress (startDownload m id jobSize name t0) id
      (if jobSize = 0 then d else jobSize) t1) id t1 _ h1
  refine ⟨{ r0 with
            downloadedSize := (if jobSize = 0 then d else jobSize)
            lastUpdate := some t1
            completed := true
            failed := some false
            endTime := some t1 }, ?_, rfl, rfl, by simp [failedTruthy]⟩
  simpa [applyOps, applyOp] using h2

theorem c4_witness :
    ((⟨some 10, none⟩ : FS).destSize = some 10 ∧ ((10 : Nat) = 10 ∨ (10 = 0 ∧ 0 < 10))) ∧
    ((downloadSingleVideo false 10 ⟨some 10, none⟩ []).result = .skipped ∧
     (downloadSingleVideo false 10 ⟨some 10, none⟩ []).requests = [] ∧
     (downloadSingleVideo false 10 ⟨some 10, none⟩ []).ops =
       [.update (if 10 = 0 then 10 else 10), .complete] ∧
     (∃ r, mapGet (applyOps "job/1" 1 (startDownload [] "job/1" 10 "a.mp4" 0)
         (downloadSingleVideo false 10 ⟨some 10, none⟩ []).ops) "job/1" = some r ∧
       r.completed = true ∧ r.downloadedSize = (if 10 = 0 then 10 else 10) ∧
       failedTruthy r = false)) :=
  ⟨⟨rfl, Or.inl rfl⟩,
    c4_skip 10 10 ⟨some 10, none⟩ [] [] "job/1" "a.mp4" 0 1 rfl (Or.inl rfl)⟩

/- ================================================================
   C5: resuming transfers send the partial size as range offset.
   ================================================================ -/

theorem stagingCheck_resume (j p : Nat) (fs : FS) (hst : fs.stagingSize = some p)
    (hp0 : 0 < p) (hps : p < j) :
    stagingCheck j fs = ⟨.proceed p, fs, [.update p]⟩ := by
  unfold stagingCheck
  rw [hst]
  simp [hp0, hps]

theorem entry_staging_cases (ov : Bool) (j p : Nat) (fs : FS)
    (hst : fs.stagingSize = some p) (hp0 : 0 < p) (hps : p < j) :
    (∃ ops1, entry ov j fs = ⟨.skipped, fs, ops1⟩) ∨
    (∃ fs2, fs2.stagingSize = some p ∧ entry ov j fs = ⟨.proceed p, fs2, [.update p]⟩) := by
  unfold entry
  cases hd : fs.destSize with
  | none => exact Or.inr ⟨fs, hst, stagingCheck_resume j p fs hst hp0 hps⟩
  | some dsize =>
    cases ov with
    | true =>
      refine Or.inr ⟨{ fs with destSize := none }, hst, ?_⟩
      simpa using stagingCheck_resume j p { fs with destSize := none } hst hp0 hps
    | false =>
      by_cases hskip : (decide (dsize = j) || (decide (j = 0) && decide (0 < dsize))) = true
      · refine Or.inl ⟨[.update (if j = 0 then dsize else j), .complete], ?_⟩
        simp [hskip]
      · refine Or.inr ⟨fs, hst, ?_⟩
        simp only [Bool.not_false, if_true, hskip]
        simpa [hskip] using stagingCheck_resume j p fs hst hp0 hps

theorem head?_append_left {α : Type} (l1 l2 : List α) (h : l1 ≠ []) :
    (l1 ++ l2).head? = l1.head? := by
  cases l1 with
  | nil => exact absurd rfl h
  | cons a l => rfl

theorem dlRetry_requests_extend (j : Nat) (resps : List ServerResponse) :
    ∀ (st : RunState) (rem : Nat),
      ∃ l, (dlRetry j resps st rem).1.requests = st.requests ++ l := by
  induction resps with
  | nil =>
    intro st rem
    exact ⟨[], by simp [dlRetry]⟩
  | cons r rest ih =>
    intro st rem
    unfold dlRetry
    cases hres : (attempt j st.resumeFrom st.fs r).result with
    | none => exact ⟨[rangeHeader st.resumeFrom], by simp [hres]⟩
    | some e =>
      by_cases hnr : isNonRetryableError e dlRetryOnStatus = true
      · exact ⟨[rangeHeader st.resumeFrom], by simp [hres, hnr]⟩
      · cases rem with
        | zero =>
          by_cases h416 : e.status = some 416
          · exact ⟨[rangeHeader st.resumeFrom], by simp [hres, hnr, h416]⟩
          · exact ⟨[rangeHeader st.resumeFrom], by simp [hres, hnr, h416]⟩
        | succ rem' =>
          by_cases h416 : e.status = some 416
          · obtain ⟨l, hl⟩ := ih { resumeFrom := 0
                                   fs := (attempt j st.resumeFrom st.fs r).fs
                                   ops := st.ops ++ (attempt j st.resumeFrom st.fs r).ops
                                   requests := st.requests ++ [rangeHeader st.resumeFrom] } rem'
            refine ⟨[rangeHeader st.resumeFrom] ++ l, ?_⟩
            simp only [hres, hnr, h416]
            simp only [Bool.false_eq_true, if_false, if_true]
            rw [show (st.requests ++ [rangeHeader st.resumeFrom]) ++ l =
              st.requests ++ ([rangeHeader st.resumeFrom] ++ l) from by simp] at hl
            exact hl
          · obtain ⟨l, hl⟩ := ih { resumeFrom := (attempt j st.resumeFrom st.fs r).resumeFrom
                                   fs := (attempt j st.resumeFrom st.fs r).fs
                                   ops := st.ops ++ (attempt j st.resumeFrom st.fs r).ops
                                   requests := st.requests ++ [rangeHeader st.resumeFrom] } rem'
            refine ⟨[rangeHeader st.resumeFrom] ++ l, ?_⟩
            simp only [hres, hnr, h416]
            simp only [Bool.false_eq_true, if_false, if_true]
            rw [show (st.requests ++ [rangeHeader st.resumeFrom]) ++ l =
              st.requests ++ ([rangeHeader st.resumeFrom] ++ l) from by simp] at hl
            exact hl

theorem dlRetry_requests_cons (j : Nat) (r : ServerResponse) (rest : List ServerResponse)
    (st : RunState) (rem : Nat) :
    ∃ l, (dlRetry j (r :: rest) st rem).1.requests =
      (st.requests ++ [rangeHeader st.resumeFrom]) ++ l := by
  unfold dlRetry
  cases hres : (attempt j st.resumeFrom st.fs r).result with
  | none => exact ⟨[], by simp [hres]⟩
  | some e =>
    by_cases hnr : isNonRetryableError e dlRetryOnStatus = true
    · exact ⟨[], by simp [hres, hnr]⟩
    · cases rem with
      | zero =>
        by_cases h416 : e.status = some 416
        · exact ⟨[], by simp [hres, hnr, h416]⟩
        · exact ⟨[], by simp [hres, hnr, h416]⟩
      | succ rem' =>
        by_cases h416 : e.status = some 416
        · obtain ⟨l, hl⟩ := dlRetry_requests_extend j rest
            { resumeFrom := 0
              fs := (attempt j st.resumeFrom st.fs r).fs
              ops := st.ops ++ (attempt j st.resumeFrom st.fs r).ops
              requests := st.requests ++ [rangeHeader st.resumeFrom] } rem'
          exact ⟨l, by simp only [hres, hnr, h416]; simpa using hl⟩
        · obtain ⟨l, hl⟩ := dlRetry_requests_extend j rest
            { resumeFrom := (attempt j st.resumeFrom st.fs r).resumeFrom
              fs := (attempt j st.resumeFrom st.fs r).fs
              ops := st.ops ++ (attempt j st.resumeFrom st.fs r).ops
              requests := st.requests ++ [rangeHeader st.resumeFrom] } rem'
          exact ⟨l, by simp only [hres, hnr, h416]; simpa using hl⟩

theorem dlRetry_requests_head (j : Nat) (r : ServerResponse) (rest : List ServerResponse)
    (st : RunState) (rem : Nat) (hreq : st.requests = []) :
    (dlRetry j (r :: rest) st rem).1.requests.head? = some (rangeHeader st.resumeFrom) := by
  obtain ⟨l, hl⟩ := dlRetry_requests_cons j r rest st rem
  rw [hl, hreq]
  rfl

/-- C5: for a job whose staging file has size p with 0 < p < expected
size, if the transfer issues any network request at all (it issues
none when the destination is already complete), then the first request
of the attempt carries a Range header with offset exactly p. -/
theorem c5_first_request_offset (ov : Bool) (jobSize p : Nat) (fs : FS)
    (r : ServerResponse) (rest : List ServerResponse)
    (hst : fs.stagingSize = some p) (hp0 : 0 < p) (hps : p < jobSize) :
    (downloadSingleVideo ov jobSize fs (r :: rest)).requests.head? = none ∨
    (downloadSingleVideo ov jobSize fs (r :: rest)).requests.head? = some (some p) := by
  rcases entry_staging_cases ov jobSize p fs hst hp0 hps with ⟨ops1, hE⟩ | ⟨fs2, _, hE⟩
  · left
    unfold downloadSingleVideo
    rw [hE]
    rfl
  · right
    unfold downloadSingleVideo
    rw [hE]
    have := dlRetry_requests_head jobSize r rest
      { resumeFrom := p, fs := fs2, ops := [.update p], requests := [] } dlMaxRetries rfl
    simpa [rangeHeader, hp0] using this

theorem c5_witness :
    ((⟨none, some 1200⟩ : FS).stagingSize = some 1200 ∧ 0 < 1200 ∧ 1200 < 5000) ∧
    ((downloadSingleVideo false 5000 ⟨none, some 1200⟩
        [{ status := 200, contentLength := 3800, chunks := [3800] }]).requests.head? = none ∨
     (downloadSingleVideo false 5000 ⟨none, some 1200⟩
        [{ status := 200, contentLength := 3800, chunks := [3800] }]).requests.head? =
       some (some 1200)) :=
  ⟨⟨rfl, by decide, by decide⟩,
    c5_first_request_offset false 5000 1200 ⟨none, some 1200⟩
      { status := 200, contentLength := 3800, chunks := [3800] } [] rfl
      (by decide) (by decide)⟩

/- ================================================================
   C1: full-content reply to a ranged request. The claim says the
   partial staging file is preserved unless smaller than 1024 bytes;
   the source deletes it unconditionally on this code path (the
   1024-byte rule lives in the streaming catch handler, which this
   early throw never reaches).
   ================================================================ -/

/-- C1 counterexample: resuming from a 2048-byte staging file (well
above the 1024-byte corruption threshold) and receiving a
full-content 200 reply yields the retryable server-classified error,
yet the staging file is deleted. -/
theorem c1_counterexample :
    (attempt 4096 2048 { destSize := none, stagingSize := some 2048 }
      { status := 200 }).result = some resumeResetError ∧
    resumeResetError.errorType = some ErrorType.SERVER_ERROR ∧
    resumeResetError.retryable = some true ∧
    ¬ (2048 < 1024) ∧
    (attempt 4096 2048 { destSize := none, stagingSize := some 2048 }
      { status := 200 }).fs.stagingSize = none :=
  ⟨rfl, rfl, rfl, by decide, rfl⟩

/-- C1 amended: when a job resuming from a partial staging file of
size p > 0 receives a full-content (2xx but non-206) reply to its
ranged request, the attempt fails with a retryable server-classified
error, and the partial staging file is always deleted — regardless of
its size — with the resume offset reset to 0 so the next attempt
starts fresh. -/
theorem c1_resume_reset (jobSize p : Nat) (fs : FS) (r : ServerResponse)
    (_hst : fs.stagingSize = some p) (hp0 : 0 < p)
    (hok : respOk r = true) (hbody : r.hasBody = true) (hnot206 : r.status ≠ 206) :
    (attempt jobSize p fs r).result = some resumeResetError ∧
    resumeResetError.errorType = some ErrorType.SERVER_ERROR ∧
    resumeResetError.retryable = some true ∧
    (attempt jobSize p fs r).fs.stagingSize = none ∧
    (attempt jobSize p fs r).resumeFrom = 0 := by
  unfold attempt
  simp [hok, hbody, hp0, hnot206, resumeResetError]
  exact ⟨rfl, rfl⟩

theorem c1_witness :
    ((⟨none, some 2500⟩ : FS).stagingSize = some 2500 ∧ 0 < 2500 ∧
      respOk { status := 200 } = true ∧ ServerResponse.hasBody { status := 200 } = true ∧
      ServerResponse.status { status := 200 } ≠ 206) ∧
    ((attempt 9000 2500 ⟨none, some 2500⟩ { status := 200 }).result = some resumeResetError ∧
     resumeResetError.errorType = some ErrorType.SERVER_ERROR ∧
     resumeResetError.retryable = some true ∧
     (attempt 9000 2500 ⟨none, some 2500⟩ { status := 200 }).fs.stagingSize = none ∧
     (attempt 9000 2500 ⟨none, some 2500⟩ { status := 200 }).resumeFrom = 0) :=
  ⟨⟨rfl, by decide, by decide, rfl, by decide⟩,
    c1_resume_reset 9000 2500 ⟨none, some 2500⟩ { status := 200 } rfl
      (by decide) (by decide) rfl (by decide)⟩

/- ================================================================
   C7: monotonicity of bytesTransferred while active. The ledger
   itself never clamps (updateProgress assigns the given value), and
   a resume invalidation resets the offset to 0, so the reported
   value can drop across attempts of one still-active record; within
   a single attempt the chunk totals are non-decreasing.
   ================================================================ -/

theorem updatesWhileActive_updates (l : List Nat) :
    updatesWhileActive (l.map TrackOp.update) = l := by
  induction l with
  | nil => rfl
  | cons x xs ih => simp [updatesWhileActive, ih]

theorem updatesWhileActive_updates_complete (l : List Nat) :
    updatesWhileActive (l.map TrackOp.update ++ [TrackOp.complete]) = l := by
  induction l with
  | nil => rfl
  | cons x xs ih => simp [updatesWhileActive, ih]

theorem chunkTotals_head_ge (s : Nat) (cs : List Nat) :
    ∀ x ∈ (chunkTotals s cs).head?, s ≤ x := by
  cases cs with
  | nil => intro x hx; simp [chunkTotals] at hx
  | cons c cs =>
    intro x hx
    simp [chunkTotals] at hx
    omega

theorem chain_chunkTotals (cs : List Nat) : ∀ s : Nat,
    List.Chain' (fun a b => a ≤ b) (chunkTotals s cs) := by
  induction cs with
  | nil => intro s; simp [chunkTotals]
  | cons c cs ih =>
    intro s
    rw [chunkTotals, List.chain'_cons']
    exact ⟨chunkTotals_head_ge (s + c) cs, ih (s + c)⟩

/-- C7 counterexample: a job with expected size 2048 resumes from a
1500-byte staging file (ledger update 1500), the server answers the
ranged request with a full-content 200 (retryable reset, staging
deleted), and the retry streams the whole file from scratch — the
ledger then receives 100 and 2048 while the record is still active,
so bytesTransferred drops from 1500 to 100 between successive updates
of an active record. -/
theorem c7_counterexample :
    updatesWhileActive (downloadSingleVideo false 2048
      { destSize := none, stagingSize := some 1500 }
      [{ status := 200 }, { status := 200, contentLength := 2048, chunks := [100, 1948] }]).ops =
      [1500, 100, 2048] ∧
    ¬ List.Chain' (fun a b => a ≤ b)
      (updatesWhileActive (downloadSingleVideo false 2048
        { destSize := none, stagingSize := some 1500 }
        [{ status := 200 },
         { status := 200, contentLength := 2048, chunks := [100, 1948] }]).ops) := by
  constructor
  · rfl
  · intro h
    rw [show updatesWhileActive (downloadSingleVideo false 2048
      { destSize := none, stagingSize := some 1500 }
      [{ status := 200 }, { status := 200, contentLength := 2048, chunks := [100, 1948] }]).ops =
      [1500, 100, 2048] from rfl] at h
    simp [List.chain'_cons] at h

theorem attempt_ops_cases (j rf : Nat) (fs : FS) (r : ServerResponse) :
    (attempt j rf fs r).ops = [] ∨
    (attempt j rf fs r).ops = (chunkTotals rf r.chunks).map TrackOp.update ∨
    (attempt j rf fs r).ops =
      (chunkTotals rf r.chunks).map TrackOp.update ++ [TrackOp.complete] := by
  unfold attempt
  repeat' split
  all_goals simp
  split <;> simp

/-- C7 amended: within any single streaming attempt (and within the
entry logic) the downloadedSize values reported to the ledger are
monotonically non-decreasing; across attempts of one active record
the value may decrease, because a resume invalidation (a full-content
reply to a ranged request, or HTTP 416) resets progress to zero. -/
theorem c7_single_attempt_monotone (jobSize resumeFrom : Nat) (fs : FS)
    (r : ServerResponse) (ov : Bool) :
    List.Chain' (fun a b => a ≤ b)
      (updatesWhileActive (attempt jobSize resumeFrom fs r).ops) ∧
    List.Chain' (fun a b => a ≤ b)
      (updatesWhileActive (entry ov jobSize fs).ops) := by
  constructor
  · rcases attempt_ops_cases jobSize resumeFrom fs r with h | h | h <;> rw [h]
    · exact List.chain'_nil
    · rw [updatesWhileActive_updates]
      exact chain_chunkTotals r.chunks resumeFrom
    · rw [updatesWhileActive_updates_complete]
      exact chain_chunkTotals r.chunks resumeFrom
  · unfold entry stagingCheck
    repeat' split
    all_goals simp [updatesWhileActive]

/- ================================================================
   C9: the destination file is only ever created by the final rename
   of a successful attempt; failed attempts leave it untouched.
   ================================================================ -/

theorem attempt_cases_full (j rf : Nat) (fs : FS) (r : ServerResponse) :
    ((attempt j rf fs r).result.isSome = true ∧
      (attempt j rf fs r).fs.destSize = fs.destSize) ∨
    ((attempt j rf fs r).result = none ∧
      (attempt j rf fs r).fs = ⟨some (rf + r.chunks.sum), none⟩ ∧
      (expectedSizeOf j (totalSizeOf rf r) = 0 ∨
        rf + r.chunks.sum = expectedSizeOf j (totalSizeOf rf r))) := by
  unfold attempt
  repeat' split
  all_goals try (left; exact ⟨rfl, rfl⟩)
  dsimp only
  split
  · left
    exact ⟨rfl, rfl⟩
  · rename_i hcond
    right
    refine ⟨rfl, rfl, ?_⟩
    simp at hcond
    omega

theorem attempt_error_destSize (j rf : Nat) (fs : FS) (r : ServerResponse)
    (e : NetworkError) (h : (attempt j rf fs r).result = some e) :
    (attempt j rf fs r).fs.destSize = fs.destSize := by
  rcases attempt_cases_full j rf fs r with ⟨-, hd⟩ | ⟨hn, -, -⟩
  · exact hd
  · rw [hn] at h
    exact Option.noConfusion h

theorem dlRetry_failed_destSize (j : Nat) (resps : List ServerResponse) :
    ∀ (st : RunState) (rem : Nat) (st' : RunState) (e : NetworkError),
    dlRetry j resps st rem = (st', .failed e) → st'.fs.destSize = st.fs.destSize := by
  induction resps with
  | nil =>
    intro st rem st' e h
    unfold dlRetry at h
    cases h
    rfl
  | cons r rest ih =>
    intro st rem st' e h
    unfold dlRetry at h
    cases hres : (attempt j st.resumeFrom st.fs r).result with
    | none =>
      simp only [hres] at h
      simp at h
    | some e1 =>
      have hdest : (attempt j st.resumeFrom st.fs r).fs.destSize = st.fs.destSize :=
        attempt_error_destSize j st.resumeFrom st.fs r e1 hres
      simp only [hres] at h
      by_cases hnr : isNonRetryableError e1 dlRetryOnStatus = true
      · simp only [hnr, if_true] at h
        cases h
        exact hdest
      · simp only [hnr, Bool.false_eq_true, if_false] at h
        cases rem with
        | zero =>
          by_cases h416 : e1.status = some 416
          · simp only [h416, if_pos] at h
            cases h
            exact hdest
          · simp only [h416, if_neg, if_false] at h
            cases h
            exact hdest
        | succ rem' =>
          by_cases h416 : e1.status = some 416
          · simp only [h416, if_pos] at h
            have := ih _ rem' st' e h
            rw [this]
            exact hdest
          · simp only [h416, if_neg, if_false] at h
            have := ih _ rem' st' e h
            rw [this]
            exact hdest

theorem entry_false_destSize (j : Nat) (fs : FS) (r0 : Nat)
    (h : (entry false j fs).result = .proceed r0) :
    (entry false j fs).fs.destSize = fs.destSize := by
  revert h
  unfold entry stagingCheck
  repeat' split
  all_goals intro h
  all_goals try rfl
  all_goals exfalso
  all_goals simp_all

/-- C9: with overwrite off, a failed transfer never creates or
modifies the final destination file — its destSize is unchanged from
before the run — and an attempt publishes to the destination only on
success, by renaming the staging file (whose written size is the
resume offset plus the streamed bytes) onto it after the written-size
verification passed (expected size unknown, or written = expected). -/
theorem c9_destination_frame (j : Nat) (fs0 : FS) (resps : List ServerResponse) :
    (∀ e, (downloadSingleVideo false j fs0 resps).result = .failed e →
      (downloadSingleVideo false j fs0 resps).fs.destSize = fs0.destSize) ∧
    (∀ (rf : Nat) (fs : FS) (r : ServerResponse), (attempt j rf fs r).result = none →
      (attempt j rf fs r).fs = ⟨some (rf + r.chunks.sum), none⟩ ∧
      (expectedSizeOf j (totalSizeOf rf r) = 0 ∨
        rf + r.chunks.sum = expectedSizeOf j (totalSizeOf rf r))) := by
  constructor
  · intro e h
    rcases hE2 : entry false j fs0 with ⟨er, efs, eops⟩
    cases er with
    | skipped =>
      have hd : downloadSingleVideo false j fs0 resps =
          { result := .skipped, fs := efs, ops := eops, requests := [] } := by
        unfold downloadSingleVideo
        rw [hE2]
      rw [hd] at h
      simp at h
    | renamedComplete =>
      have hd : downloadSingleVideo false j fs0 resps =
          { result := .downloaded, fs := efs, ops := eops, requests := [] } := by
        unfold downloadSingleVideo
        rw [hE2]
      rw [hd] at h
      simp at h
    | proceed r0 =>
      rcases hrun : dlRetry j resps
        { resumeFrom := r0, fs := efs, ops := eops, requests := [] } dlMaxRetries with ⟨st', res⟩
      have hd : downloadSingleVideo false j fs0 resps =
          { result := res, fs := st'.fs, ops := st'.ops, requests := st'.requests } := by
        unfold downloadSingleVideo
        rw [hE2]
        dsimp only
        rw [hrun]
      rw [hd] at h ⊢
      dsimp only at h ⊢
      rw [h] at hrun
      have hdest := dlRetry_failed_destSize j resps
        { resumeFrom := r0, fs := efs, ops := eops, requests := [] } dlMaxRetries st' e hrun
      have hentry : (entry false j fs0).fs.destSize = fs0.destSize :=
        entry_false_destSize j fs0 r0 (by rw [hE2])
      rw [hE2] at hentry
      rw [hdest]
      exact hentry
  · intro rf fs r h
    rcases attempt_cases_full j rf fs r with ⟨hs, -⟩ | ⟨-, hfs, hver⟩
    · rw [h] at hs
      exact Bool.noConfusion hs
    · exact ⟨hfs, hver⟩

theorem c9_witness :
    ((downloadSingleVideo false 100 ⟨some 10, none⟩ [{ status := 404 }]).result =
      .failed (createNetworkError "Video file not found" (some 404) none (some .API_ERROR)) ∧
     (downloadSingleVideo false 100 ⟨some 10, none⟩ [{ status := 404 }]).fs.destSize =
       (⟨some 10, none⟩ : FS).destSize) ∧
    ((attempt 100 0 ⟨none, none⟩
        { status := 200, contentLength := 100, chunks := [100] }).result = none ∧
     (attempt 100 0 ⟨none, none⟩
        { status := 200, contentLength := 100, chunks := [100] }).fs =
       ⟨some (0 + ([100] : List Nat).sum), none⟩ ∧
     (expectedSizeOf 100
        (totalSizeOf 0 { status := 200, contentLength := 100, chunks := [100] }) = 0 ∨
      0 + ([100] : List Nat).sum = expectedSizeOf 100
        (totalSizeOf 0 { status := 200, contentLength := 100, chunks := [100] }))) :=
  ⟨⟨rfl, (c9_destination_frame 100 ⟨some 10, none⟩ [{ status := 404 }]).1
      (createNetworkError "Video file not found" (some 404) none (some .API_ERROR)) rfl⟩,
   rfl, (c9_destination_frame 100 ⟨some 10, none⟩ [{ status := 404 }]).2 0 ⟨none, none⟩
      { status := 200, contentLength := 100, chunks := [100] } rfl⟩

end VD
